import Mathlib

/-!
Verification development for the coil-building calculation engine of
`src/index.js` (the `CoilBuilder` component).

Embedding conventions:
* JS double-precision numbers are modelled as exact rationals (`ℚ`); the
  constant `Math.PI` is modelled by `jsPi`, the exact rational value of the
  IEEE-754 double that `Math.PI` denotes.
* Fallible JS computations are modelled with `Option`: a lookup of an unknown
  material key (which in JS raises a `TypeError` when `.rho_mm2_per_m` is read
  from `undefined`) and a division by a zero cross-sectional area (which in JS
  yields the non-finite value `Infinity`/`NaN`) are both modelled as `none`,
  meaning "the code produces no finite numeric result here".
* JS truthiness tests (`x || y`, `cond ? a : b` on numbers) are modelled
  explicitly: a number is falsy exactly when it is `0` (there is no `NaN` in
  the rational model).
-/

/-- The exact rational value of the IEEE-754 double `Math.PI`
(`3.141592653589793115997963468544185161590576171875`). -/
def jsPi : ℚ := 884279719003555 / 281474976710656

/-- One entry of the `materials` object: resistivity in Ω·mm²/m and the
descriptive note shown in the UI. -/
structure Material where
  rho_mm2_per_m : ℚ
  note : String
deriving DecidableEq

/-- The `materials` lookup table of `src/index.js` (lines 8–14), as a function
from the JS object key to the entry; `none` models an absent key. -/
def materials (id : String) : Option Material :=
  if id = "Kanthal A1" then some ⟨1.45, "Kanthal A1 (good for wattage, not for TC)"⟩
  else if id = "Nichrome (Ni80)" then some ⟨1.09, "Nichrome — high resistivity, not for TC typically"⟩
  else if id = "SS316L" then some ⟨0.75, "Stainless Steel 316L — works with TC and VW"⟩
  else if id = "Ni200" then some ⟨0.70, "Nickel 200 — TC only, fragile"⟩
  else if id = "Titanium (Ti)" then some ⟨0.42, "Titanium — TC only, use with care"⟩
  else none

/-- `mmToMeters` of `src/index.js` line 38. -/
def mmToMeters (x : ℚ) : ℚ := x / 1000

/-- `computeLengthMeters` of `src/index.js` lines 41–45:
circumference × wraps + legs, converted from mm to meters. -/
def computeLengthMeters (wrapsCount coilIDmm legsMm : ℚ) : ℚ :=
  mmToMeters (jsPi * coilIDmm * wrapsCount + legsMm)

/-- `areaMm2` of `src/index.js` lines 47–49: `Math.PI * Math.pow(diameterMm/2, 2)`.
Note the source performs no validation of `diameterMm`. -/
def areaMm2 (diameterMm : ℚ) : ℚ := jsPi * (diameterMm / 2) ^ 2

/-- `computeResistanceOhm` of `src/index.js` lines 51–59.
`none` models the two ways the JS code fails to produce a finite number:
a `TypeError` when `materialKey` is not in `materials`, and the non-finite
quotient (`Infinity`/`NaN`) when the cross-sectional area is zero, which for
this formula happens exactly when `wireDiameterMm = 0`. -/
def computeResistanceOhm (materialKey : String)
    (wireDiameterMm wrapsCount coilIDmm legsMm : ℚ) : Option ℚ :=
  match materials materialKey with
  | none => none
  | some mat =>
    let rho := mat.rho_mm2_per_m
    let Lm := computeLengthMeters wrapsCount coilIDmm legsMm
    let A := areaMm2 wireDiameterMm
    if A = 0 then none else some (rho * Lm / A)

/-- The `{wraps, resistance}` record returned by `findWrapsForTarget`. -/
structure WrapSolution where
  wraps : ℕ
  resistance : ℚ
deriving DecidableEq

/-- The loop body of `findWrapsForTarget` (`src/index.js` lines 62–65) together
with the fallback after the loop (lines 66–67), written with explicit fuel:
`fuel` is the number of loop iterations still allowed and `w` the current loop
counter, so the call corresponding to the JS function has `fuel = maxWraps` and
`w = 1`.  A `none` from `computeResistanceOhm` propagates (the JS code would
have thrown or compared against a non-finite value). -/
def findWrapsAux (materialKey : String) (wireDiameterMm coilIDmm legsMm targetOhm : ℚ)
    (maxWraps : ℕ) : ℕ → ℕ → Option WrapSolution
  | 0, _ =>
    match computeResistanceOhm materialKey wireDiameterMm (maxWraps : ℚ) coilIDmm legsMm with
    | none => none
    | some r => some ⟨maxWraps, r⟩
  | fuel + 1, w =>
    match computeResistanceOhm materialKey wireDiameterMm (w : ℚ) coilIDmm legsMm with
    | none => none
    | some r =>
      if targetOhm ≤ r then some ⟨w, r⟩
      else findWrapsAux materialKey wireDiameterMm coilIDmm legsMm targetOhm maxWraps fuel (w + 1)

/-- `findWrapsForTarget` of `src/index.js` lines 61–68: linear scan
`w = 1..maxWraps`, returning the first `w` whose resistance reaches
`targetOhm`, and `{maxWraps, resistance(maxWraps)}` if none does.
The JS default argument `maxWraps = 60` is passed explicitly here. -/
def findWrapsForTarget (materialKey : String)
    (wireDiameterMm coilIDmm legsMm targetOhm : ℚ) (maxWraps : ℕ) : Option WrapSolution :=
  findWrapsAux materialKey wireDiameterMm coilIDmm legsMm targetOhm maxWraps maxWraps 1

/-- The pure resistance formula `rho × length / area`, i.e. the value inside
`some` that `computeResistanceOhm` returns for a catalog material and a
nonzero wire diameter, as a function of the (integer) wrap count. -/
def resFormula (mat : Material) (wireDiameterMm coilIDmm legsMm : ℚ) (w : ℕ) : ℚ :=
  mat.rho_mm2_per_m * computeLengthMeters (w : ℚ) coilIDmm legsMm / areaMm2 wireDiameterMm

/-- The JS expression `r || 0.000001` (`src/index.js` lines 75–76) applied to a
number `r`: in JS a number is falsy exactly when it is `0` (or `NaN`, absent
from the rational model), so the guard replaces only an exact zero. -/
def epsGuard (r : ℚ) : ℚ := if r = 0 then 1 / 1000000 else r

/-- `currentAtTarget` of `src/index.js` line 75: `voltage / (calcResistance || 1e-6)`. -/
def currentAtTarget (voltage calcResistance : ℚ) : ℚ := voltage / epsGuard calcResistance

/-- `powerAtTarget` of `src/index.js` line 76:
`Math.pow(currentAtTarget, 2) * (calcResistance || 1e-6)`. -/
def powerAtTarget (voltage calcResistance : ℚ) : ℚ :=
  (currentAtTarget voltage calcResistance) ^ 2 * epsGuard calcResistance

/-- The safety check of `src/index.js` lines 172–173: `currentAtTarget > safetyLimitAmp`. -/
def exceedsSafetyLimit (current safetyLimitAmp : ℚ) : Bool := decide (safetyLimitAmp < current)

/-- JS `Math.round` on a finite number: `⌊x + 1/2⌋` (round half toward +∞). -/
def jsRound (x : ℚ) : ℤ := ⌊x + 1 / 2⌋

/-- Prefix-and-slide substring test on character lists, used to model the JS
`String.prototype.includes` method. -/
def hasSub (sub : List Char) : List Char → Bool
  | [] => decide (sub = [])
  | c :: rest => decide ((c :: rest).take sub.length = sub) || hasSub sub rest

/-- The JS expression `s.includes(sub)`. -/
def jsIncludes (s sub : String) : Bool := hasSub sub.toList s.toList

/-- JS `Number(v).toFixed(n)` (the `fmt` helper of `src/index.js` line 79)
under exact rational arithmetic: the magnitude is rounded half-up to `n`
decimal digits and printed with exactly `n` digits after the point. -/
def fmt (v : ℚ) (n : ℕ) : String :=
  let x : ℚ := |v|
  let scaled : ℤ := ⌊x * (10 : ℚ) ^ n + 1 / 2⌋
  let ip := scaled / (10 : ℤ) ^ n
  let fp := (scaled % (10 : ℤ) ^ n).toNat
  let fpStr := toString fp
  (if v < 0 then "-" else "") ++ toString ip ++
    (if n = 0 then "" else "." ++ String.mk (List.replicate (n - fpStr.length) '0') ++ fpStr)

/-- The profile record built by the export handler (`src/index.js` lines 213–222). -/
structure Profile where
  Name : String
  Mode : String
  Temperature : Option ℤ
  Power : ℤ
  PreheatPower : ℤ
  PreheatTime : ℤ
  Cutoff : ℤ
  Resistance : String
deriving DecidableEq

/-- The construction of `profile` in the export handler (`src/index.js`
lines 213–222), as a function of the material key and the ambient computed
values `powerAtTarget` and `calcResistance` it closes over.  `none` models the
`TypeError` the JS code raises when the material key is absent (it reads
`materials[material].note`). -/
def buildProfile (material : String) (powerAtTargetW calcResistance : ℚ) : Option Profile :=
  match materials material with
  | none => none
  | some mat =>
    some
      { Name := "DAB-CUSTOM"
        Mode :=
          if jsIncludes mat.note "TC" || jsIncludes material "SS" || jsIncludes material "Ni" then
            if material == "SS316L" || material == "Ni200" || jsIncludes material "Ti" then
              "TC-SS"
            else "Power"
          else "Power"
        Temperature := if material == "SS316L" then some 220 else none
        Power := min 50 (jsRound powerAtTargetW)
        PreheatPower := jsRound (min 80 (max 20 (powerAtTargetW * 1.4)))
        PreheatTime := 1
        Cutoff := 8
        Resistance := fmt calcResistance 4 }

/-- The interpolated fragment `${profile.Temperature ? `Temperature=...\n` : ''}`
of the export template (`src/index.js` line 223): the line is emitted only when
the field is present with a truthy (nonzero) value. -/
def temperatureSegment : Option ℤ → String
  | some t => if t = 0 then "" else "Temperature=" ++ toString t ++ "\n"
  | none => ""

/-- The template literal `text` of the export handler (`src/index.js` line 223),
with the same literal chunks and interpolated fields. -/
def serializeProfile (p : Profile) : String :=
  "; Generated by trhacknon Coil Builder\n[ProfileCustom]\nName=" ++ p.Name ++
    "\nMode=" ++ p.Mode ++ "\n" ++ temperatureSegment p.Temperature ++
    "Power=" ++ toString p.Power ++
    "\nPreheatPower=" ++ toString p.PreheatPower ++
    "\nPreheatTime=" ++ toString p.PreheatTime ++
    "\nCutoff=" ++ toString p.Cutoff ++
    "\n; EstimatedResistance=" ++ p.Resistance ++ "\n"

/-- Modelled from the spec (§4.2): the spec's contract
`crossSectionAreaMm2(diameterMm) -> area`, which fails with `InvalidDimension`
when `diameterMm <= 0`.  This definition follows the spec's words and exists
only to be compared with the source function `areaMm2`, which performs no such
validation. -/
def specCrossSectionAreaMm2 (diameterMm : ℚ) : Option ℚ :=
  if diameterMm ≤ 0 then none else some (jsPi * (diameterMm / 2) ^ 2)



lemma jsPi_pos : 0 < jsPi := by norm_num [jsPi]

lemma materials_Kanthal :
    materials "Kanthal A1" = some ⟨1.45, "Kanthal A1 (good for wattage, not for TC)"⟩ := rfl

lemma materials_SS316L :
    materials "SS316L" = some ⟨0.75, "Stainless Steel 316L — works with TC and VW"⟩ := rfl

lemma materials_rho_pos (mk : String) (mat : Material) (hm : materials mk = some mat) :
    0 < mat.rho_mm2_per_m := by
  unfold materials at hm
  split_ifs at hm <;>
    first
      | exact Option.noConfusion hm
      | · simp only [Option.some.injEq] at hm
          subst hm
          norm_num

lemma areaMm2_pos (d : ℚ) (hd : d ≠ 0) : 0 < areaMm2 d := by
  have h2 : d / 2 ≠ 0 := by simpa using hd
  have hsq : 0 < (d / 2) ^ 2 := lt_of_le_of_ne (sq_nonneg _) (Ne.symm (pow_ne_zero 2 h2))
  exact mul_pos jsPi_pos hsq

lemma areaMm2_ne_zero (d : ℚ) (hd : d ≠ 0) : areaMm2 d ≠ 0 :=
  ne_of_gt (areaMm2_pos d hd)

lemma computeResistanceOhm_of_mat (mk : String) (mat : Material)
    (hm : materials mk = some mat) (d wq idm legs : ℚ) (hd : d ≠ 0) :
    computeResistanceOhm mk d wq idm legs =
      some (mat.rho_mm2_per_m * computeLengthMeters wq idm legs / areaMm2 d) := by
  unfold computeResistanceOhm
  rw [hm]
  simp only [if_neg (areaMm2_ne_zero d hd)]

lemma computeLengthMeters_mono (idm legs w1 w2 : ℚ) (hid : 0 ≤ idm) (hw : w1 ≤ w2) :
    computeLengthMeters w1 idm legs ≤ computeLengthMeters w2 idm legs := by
  unfold computeLengthMeters mmToMeters
  have h : jsPi * idm * w1 ≤ jsPi * idm * w2 :=
    mul_le_mul_of_nonneg_left hw (mul_nonneg (le_of_lt jsPi_pos) hid)
  linarith

lemma resFormula_mono (mat : Material) (d idm legs : ℚ) (hrho : 0 < mat.rho_mm2_per_m)
    (hd : d ≠ 0) (hid : 0 ≤ idm) (w1 w2 : ℕ) (hw : w1 ≤ w2) :
    resFormula mat d idm legs w1 ≤ resFormula mat d idm legs w2 := by
  unfold resFormula
  have hL : computeLengthMeters (w1 : ℚ) idm legs ≤ computeLengthMeters (w2 : ℚ) idm legs :=
    computeLengthMeters_mono idm legs _ _ hid (by exact_mod_cast hw)
  have hA : 0 < areaMm2 d := areaMm2_pos d hd
  exact (div_le_div_iff_of_pos_right hA).mpr (mul_le_mul_of_nonneg_left hL (le_of_lt hrho))

lemma resFormula_pos (mat : Material) (d idm legs : ℚ) (hrho : 0 < mat.rho_mm2_per_m)
    (hd : d ≠ 0) (hid : 0 < idm) (hlegs : 0 ≤ legs) (w : ℕ) (hw : 1 ≤ w) :
    0 < resFormula mat d idm legs w := by
  unfold resFormula computeLengthMeters mmToMeters
  have hA : 0 < areaMm2 d := areaMm2_pos d hd
  have hwq : (1 : ℚ) ≤ (w : ℚ) := by exact_mod_cast hw
  have h1 : 0 < jsPi * idm := mul_pos jsPi_pos hid
  have hnum : 0 < jsPi * idm * (w : ℚ) + legs := by nlinarith
  exact div_pos (mul_pos hrho (div_pos hnum (by norm_num))) hA

/-- C2 (counterexample): the source's cross-sectional-area computation performs
no validation at all: at `diameterMm = 0` it returns the number `0`, and at
`diameterMm = -2` it returns the positive number `jsPi`, whereas the claimed
contract (`specCrossSectionAreaMm2`, modelled from the spec) fails on both. -/
theorem areaMm2_no_validation_cex :
    areaMm2 0 = 0 ∧ areaMm2 (-2) = jsPi ∧ 0 < areaMm2 (-2) ∧
    specCrossSectionAreaMm2 0 = none ∧ specCrossSectionAreaMm2 (-2) = none := by
  refine ⟨by norm_num [areaMm2], by norm_num [areaMm2], ?_,
    by norm_num [specCrossSectionAreaMm2], by norm_num [specCrossSectionAreaMm2]⟩
  exact areaMm2_pos (-2) (by norm_num)

/-- C2 (amended): `areaMm2` is a total function that never fails: for every
`diameterMm` (including zero and negative values) it returns the number
`jsPi × (diameterMm/2)²`, which is `0` at `diameterMm = 0` and strictly
positive for every nonzero (in particular every negative) diameter; for
`diameterMm > 0` this is the claimed value `π × (diameterMm/2)²`. -/
theorem areaMm2_total_eval (dmm : ℚ) :
    areaMm2 dmm = jsPi * (dmm / 2) ^ 2 ∧ (dmm ≠ 0 → 0 < areaMm2 dmm) ∧ areaMm2 0 = 0 :=
  ⟨rfl, fun h => areaMm2_pos dmm h, by norm_num [areaMm2]⟩

/-- Witness for `areaMm2_total_eval` at the concrete diameter `-2`. -/
theorem areaMm2_total_eval_witness :
    (-2 : ℚ) ≠ 0 ∧ 0 < areaMm2 (-2) :=
  ⟨by norm_num, (areaMm2_total_eval (-2)).2.1 (by norm_num)⟩

/-- C3: for a catalog material, nonzero wire diameter `d`, wraps `w ≥ 1`,
inner diameter `> 0` and legs `≥ 0`, the wire length is
`(π·ID·w + legs)/1000` meters, the resistance is `ρ × length / (π·(d/2)²)`,
and that resistance is strictly positive. -/
theorem resistance_formula_and_pos (mk : String) (mat : Material)
    (hm : materials mk = some mat) (d idm legs : ℚ) (w : ℕ)
    (hd : 0 < d) (hw : 1 ≤ w) (hid : 0 < idm) (hlegs : 0 ≤ legs) :
    computeLengthMeters (w : ℚ) idm legs = (jsPi * idm * (w : ℚ) + legs) / 1000 ∧
    computeResistanceOhm mk d (w : ℚ) idm legs =
      some (mat.rho_mm2_per_m * ((jsPi * idm * (w : ℚ) + legs) / 1000) / (jsPi * (d / 2) ^ 2)) ∧
    ∀ r : ℚ, computeResistanceOhm mk d (w : ℚ) idm legs = some r → 0 < r := by
  have hd' : d ≠ 0 := ne_of_gt hd
  refine ⟨rfl, ?_, ?_⟩
  · exact computeResistanceOhm_of_mat mk mat hm d (w : ℚ) idm legs hd'
  · intro r hr
    rw [computeResistanceOhm_of_mat mk mat hm d (w : ℚ) idm legs hd',
      Option.some.injEq] at hr
    subst hr
    exact resFormula_pos mat d idm legs (materials_rho_pos mk mat hm) hd' hid hlegs w hw

/-- Witness for `resistance_formula_and_pos`: SS316L, AWG26 wire (0.405 mm),
5 wraps, 3 mm inner diameter, 6 mm legs. -/
theorem resistance_formula_and_pos_witness :
    materials "SS316L" = some ⟨0.75, "Stainless Steel 316L — works with TC and VW"⟩ ∧
    (0 : ℚ) < 405 / 1000 ∧ 1 ≤ 5 ∧ (0 : ℚ) < 3 ∧ (0 : ℚ) ≤ 6 ∧
    (computeLengthMeters ((5 : ℕ) : ℚ) 3 6 = (jsPi * 3 * ((5 : ℕ) : ℚ) + 6) / 1000 ∧
      computeResistanceOhm "SS316L" (405 / 1000) ((5 : ℕ) : ℚ) 3 6 =
        some ((0.75 : ℚ) * ((jsPi * 3 * ((5 : ℕ) : ℚ) + 6) / 1000) / (jsPi * ((405 / 1000 : ℚ) / 2) ^ 2)) ∧
      ∀ r : ℚ, computeResistanceOhm "SS316L" (405 / 1000) ((5 : ℕ) : ℚ) 3 6 = some r → 0 < r) :=
  ⟨rfl, by norm_num, by norm_num, by norm_num, by norm_num,
    resistance_formula_and_pos "SS316L" ⟨0.75, "Stainless Steel 316L — works with TC and VW"⟩
      rfl (405 / 1000) 3 6 5 (by norm_num) (by norm_num) (by norm_num) (by norm_num)⟩

/-- C5 (counterexample): with a zero wire diameter the engine substitutes no
epsilon: the area is exactly `0` (not positive), and the resistance
computation produces no finite number (`none` models the JS `Infinity`). -/
theorem zero_diameter_cex :
    areaMm2 0 = 0 ∧ ¬ 0 < areaMm2 0 ∧ computeResistanceOhm "SS316L" 0 5 3 6 = none := by
  refine ⟨by norm_num [areaMm2], by norm_num [areaMm2], ?_⟩
  simp only [computeResistanceOhm, materials_SS316L]
  norm_num [areaMm2]

/-- C5 (amended): the engine does not guard the wire diameter: for every
material key and geometry, a zero diameter gives a zero cross-sectional area
and the resistance computation yields no finite value (division by zero, JS
`Infinity`); the only epsilon substitution in the code is `epsGuard`
(`calcResistance || 1e-6`), applied downstream to the computed resistance in
the current/power derivation, and that guard indeed never returns zero. -/
theorem zero_diameter_not_guarded (mk : String) (wq idm legs : ℚ) :
    areaMm2 0 = 0 ∧ computeResistanceOhm mk 0 wq idm legs = none ∧
    ∀ r : ℚ, epsGuard r ≠ 0 := by
  refine ⟨by norm_num [areaMm2], ?_, ?_⟩
  · unfold computeResistanceOhm
    cases hmm : materials mk with
    | none => rfl
    | some mat =>
      simp only []
      rw [if_pos (by norm_num [areaMm2])]
  · intro r
    unfold epsGuard
    split_ifs with h
    · norm_num
    · exact h

/-- C7: for a fixed catalog material, nonzero positive wire diameter, positive
inner diameter and nonnegative legs, the computed resistance is monotonically
non-decreasing in the wrap count. -/
theorem resistance_mono_in_wraps (mk : String) (mat : Material)
    (hm : materials mk = some mat) (d idm legs : ℚ)
    (hd : 0 < d) (hid : 0 < idm) (hlegs : 0 ≤ legs)
    (w1 w2 : ℕ) (hw : w1 < w2) (r1 r2 : ℚ)
    (h1 : computeResistanceOhm mk d (w1 : ℚ) idm legs = some r1)
    (h2 : computeResistanceOhm mk d (w2 : ℚ) idm legs = some r2) :
    r1 ≤ r2 := by
  have hd' : d ≠ 0 := ne_of_gt hd
  rw [computeResistanceOhm_of_mat mk mat hm d (w1 : ℚ) idm legs hd',
    Option.some.injEq] at h1
  rw [computeResistanceOhm_of_mat mk mat hm d (w2 : ℚ) idm legs hd',
    Option.some.injEq] at h2
  subst h1
  subst h2
  exact resFormula_mono mat d idm legs (materials_rho_pos mk mat hm) hd'
    (le_of_lt hid) w1 w2 (le_of_lt hw)

/-- Witness for `resistance_mono_in_wraps`: Kanthal A1, 0.5 mm wire, 3 mm inner
diameter, 6 mm legs, wraps 2 < 7. -/
theorem resistance_mono_in_wraps_witness :
    materials "Kanthal A1" = some ⟨1.45, "Kanthal A1 (good for wattage, not for TC)"⟩ ∧
    (0 : ℚ) < 1 / 2 ∧ (0 : ℚ) < 3 ∧ (0 : ℚ) ≤ 6 ∧ 2 < 7 ∧
    resFormula ⟨1.45, "Kanthal A1 (good for wattage, not for TC)"⟩ (1 / 2) 3 6 2 ≤
      resFormula ⟨1.45, "Kanthal A1 (good for wattage, not for TC)"⟩ (1 / 2) 3 6 7 :=
  ⟨rfl, by norm_num, by norm_num, by norm_num, by norm_num,
    resistance_mono_in_wraps "Kanthal A1" ⟨1.45, "Kanthal A1 (good for wattage, not for TC)"⟩
      rfl (1 / 2) 3 6 (by norm_num) (by norm_num) (by norm_num) 2 7 (by norm_num) _ _
      (computeResistanceOhm_of_mat "Kanthal A1"
        ⟨1.45, "Kanthal A1 (good for wattage, not for TC)"⟩ rfl (1 / 2) ((2 : ℕ) : ℚ) 3 6
        (by norm_num))
      (computeResistanceOhm_of_mat "Kanthal A1"
        ⟨1.45, "Kanthal A1 (good for wattage, not for TC)"⟩ rfl (1 / 2) ((7 : ℕ) : ℚ) 3 6
        (by norm_num))⟩

lemma findWrapsAux_spec (mk : String) (mat : Material) (d idm legs t : ℚ)
    (hm : materials mk = some mat) (hd : d ≠ 0) (maxWraps : ℕ) :
    ∀ fuel w, w + fuel = maxWraps + 1 →
      ∃ sol : WrapSolution,
        findWrapsAux mk d idm legs t maxWraps fuel w = some sol ∧
        sol.resistance = resFormula mat d idm legs sol.wraps ∧
        ((w ≤ sol.wraps ∧ sol.wraps ≤ maxWraps ∧ t ≤ sol.resistance ∧
            ∀ k, w ≤ k → k < sol.wraps → resFormula mat d idm legs k < t) ∨
          (sol.wraps = maxWraps ∧ ∀ k, w ≤ k → k ≤ maxWraps → resFormula mat d idm legs k < t)) := by
  intro fuel
  induction fuel with
  | zero =>
    intro w hw
    refine ⟨⟨maxWraps, resFormula mat d idm legs maxWraps⟩, ?_, rfl, Or.inr ⟨rfl, ?_⟩⟩
    · simp only [findWrapsAux,
        computeResistanceOhm_of_mat mk mat hm d (maxWraps : ℚ) idm legs hd]
      rfl
    · intro k hk1 hk2
      exact absurd hk2 (by omega)
  | succ fuel ih =>
    intro w hw
    simp only [findWrapsAux, computeResistanceOhm_of_mat mk mat hm d (w : ℚ) idm legs hd]
    by_cases hc : t ≤ mat.rho_mm2_per_m * computeLengthMeters (w : ℚ) idm legs / areaMm2 d
    · refine ⟨⟨w, mat.rho_mm2_per_m * computeLengthMeters (w : ℚ) idm legs / areaMm2 d⟩,
        ?_, rfl, Or.inl ⟨le_refl w, ?_, hc, ?_⟩⟩
      · rw [if_pos hc]
      · show w ≤ maxWraps
        omega
      · intro k hk1 hk2
        have hk2' : k < w := hk2
        exact absurd hk2' (by omega)
    · obtain ⟨sol, hsol, hres, hdisj⟩ := ih (w + 1) (by omega)
      have hlt : resFormula mat d idm legs w < t := lt_of_not_le hc
      refine ⟨sol, ?_, hres, ?_⟩
      · rw [if_neg hc]
        exact hsol
      · rcases hdisj with ⟨ha, hb, hc2, hmin⟩ | ⟨hmax, hall⟩
        · left
          refine ⟨by omega, hb, hc2, ?_⟩
          intro k hk1 hk2
          rcases Nat.eq_or_lt_of_le hk1 with heq | hgt
          · subst heq
            exact hlt
          · exact hmin k (by omega) hk2
        · right
          refine ⟨hmax, ?_⟩
          intro k hk1 hk2
          rcases Nat.eq_or_lt_of_le hk1 with heq | hgt
          · subst heq
            exact hlt
          · exact hall k (by omega) hk2

/-- C1: for every catalog material, wire diameter `> 0`, inner diameter `> 0`,
legs `≥ 0`, target `> 0` and `maxWraps = 60`, `findWrapsForTarget` returns the
smallest wrap count in `1..60` whose resistance reaches the target, together
with that wrap count's resistance; when no wrap count up to 60 reaches the
target it returns the saturated result at 60 rather than failing. -/
theorem findWrapsForTarget_least_crossing (mk : String) (mat : Material)
    (hm : materials mk = some mat) (d idm legs t : ℚ)
    (hd : 0 < d) (hid : 0 < idm) (hlegs : 0 ≤ legs) (ht : 0 < t) :
    ∃ sol : WrapSolution,
      findWrapsForTarget mk d idm legs t 60 = some sol ∧
      1 ≤ sol.wraps ∧ sol.wraps ≤ 60 ∧
      sol.resistance = resFormula mat d idm legs sol.wraps ∧
      ((∃ w, 1 ≤ w ∧ w ≤ 60 ∧ t ≤ resFormula mat d idm legs w) →
        t ≤ sol.resistance ∧ ∀ k, 1 ≤ k → k < sol.wraps → resFormula mat d idm legs k < t) ∧
      ((∀ w, 1 ≤ w → w ≤ 60 → resFormula mat d idm legs w < t) → sol.wraps = 60) := by
  obtain ⟨sol, hsol, hres, hdisj⟩ :=
    findWrapsAux_spec mk mat d idm legs t hm (ne_of_gt hd) 60 60 1 (by omega)
  refine ⟨sol, hsol, ?_, ?_, hres, ?_, ?_⟩
  · rcases hdisj with ⟨ha, _, _, _⟩ | ⟨hmax, _⟩
    · exact ha
    · omega
  · rcases hdisj with ⟨_, hb, _, _⟩ | ⟨hmax, _⟩
    · exact hb
    · omega
  · rintro ⟨w, hw1, hw2, hwt⟩
    rcases hdisj with ⟨_, _, hc2, hmin⟩ | ⟨_, hall⟩
    · exact ⟨hc2, fun k hk1 hk2 => hmin k hk1 hk2⟩
    · exact absurd hwt (not_le.mpr (hall w hw1 hw2))
  · intro hall
    rcases hdisj with ⟨ha, hb, hc2, _⟩ | ⟨hmax, _⟩
    · rw [hres] at hc2
      exact absurd hc2 (not_le.mpr (hall sol.wraps ha hb))
    · exact hmax

/-- Witness for `findWrapsForTarget_least_crossing`: SS316L, 0.405 mm wire,
3 mm inner diameter, 6 mm legs, target 0.25 Ω. -/
theorem findWrapsForTarget_least_crossing_witness :
    materials "SS316L" = some ⟨0.75, "Stainless Steel 316L — works with TC and VW"⟩ ∧
    (0 : ℚ) < 405 / 1000 ∧ (0 : ℚ) < 3 ∧ (0 : ℚ) ≤ 6 ∧ (0 : ℚ) < 1 / 4 ∧
    (∃ sol : WrapSolution,
      findWrapsForTarget "SS316L" (405 / 1000) 3 6 (1 / 4) 60 = some sol ∧
      1 ≤ sol.wraps ∧ sol.wraps ≤ 60 ∧
      sol.resistance =
        resFormula ⟨0.75, "Stainless Steel 316L — works with TC and VW"⟩ (405 / 1000) 3 6 sol.wraps ∧
      ((∃ w, 1 ≤ w ∧ w ≤ 60 ∧
          (1 / 4 : ℚ) ≤ resFormula ⟨0.75, "Stainless Steel 316L — works with TC and VW"⟩ (405 / 1000) 3 6 w) →
        (1 / 4 : ℚ) ≤ sol.resistance ∧ ∀ k, 1 ≤ k → k < sol.wraps →
          resFormula ⟨0.75, "Stainless Steel 316L — works with TC and VW"⟩ (405 / 1000) 3 6 k < (1 / 4 : ℚ)) ∧
      ((∀ w, 1 ≤ w → w ≤ 60 →
          resFormula ⟨0.75, "Stainless Steel 316L — works with TC and VW"⟩ (405 / 1000) 3 6 w < (1 / 4 : ℚ)) →
        sol.wraps = 60)) :=
  ⟨rfl, by norm_num, by norm_num, by norm_num, by norm_num,
    findWrapsForTarget_least_crossing "SS316L"
      ⟨0.75, "Stainless Steel 316L — works with TC and VW"⟩ rfl (405 / 1000) 3 6 (1 / 4)
      (by norm_num) (by norm_num) (by norm_num) (by norm_num)⟩

/-- C10: for a catalog material, wire diameter `> 0`, inner diameter `> 0`,
legs `≥ 0`, any target and any `maxWraps ≥ 1`, the returned solution satisfies
`1 ≤ wraps ≤ maxWraps` and its `resistance` field is exactly the value
`computeResistanceOhm` computes for that returned wrap count. -/
theorem findWrapsForTarget_invariants (mk : String) (mat : Material)
    (hm : materials mk = some mat) (d idm legs t : ℚ) (maxWraps : ℕ)
    (hd : 0 < d) (hid : 0 < idm) (hlegs : 0 ≤ legs) (hmax : 1 ≤ maxWraps) :
    ∃ sol : WrapSolution,
      findWrapsForTarget mk d idm legs t maxWraps = some sol ∧
      1 ≤ sol.wraps ∧ sol.wraps ≤ maxWraps ∧
      computeResistanceOhm mk d (sol.wraps : ℚ) idm legs = some sol.resistance := by
  obtain ⟨sol, hsol, hres, hdisj⟩ :=
    findWrapsAux_spec mk mat d idm legs t hm (ne_of_gt hd) maxWraps maxWraps 1 (by omega)
  refine ⟨sol, hsol, ?_, ?_, ?_⟩
  · rcases hdisj with ⟨ha, _, _, _⟩ | ⟨hmax2, _⟩
    · exact ha
    · omega
  · rcases hdisj with ⟨_, hb, _, _⟩ | ⟨hmax2, _⟩
    · exact hb
    · omega
  · rw [computeResistanceOhm_of_mat mk mat hm d (sol.wraps : ℚ) idm legs (ne_of_gt hd)]
    exact congrArg some hres.symm

/-- Witness for `findWrapsForTarget_invariants`: Kanthal A1, 0.3 mm wire,
2.5 mm inner diameter, 4 mm legs, target 1 Ω, maxWraps 30. -/
theorem findWrapsForTarget_invariants_witness :
    materials "Kanthal A1" = some ⟨1.45, "Kanthal A1 (good for wattage, not for TC)"⟩ ∧
    (0 : ℚ) < 3 / 10 ∧ (0 : ℚ) < 5 / 2 ∧ (0 : ℚ) ≤ 4 ∧ 1 ≤ 30 ∧
    (∃ sol : WrapSolution,
      findWrapsForTarget "Kanthal A1" (3 / 10) (5 / 2) 4 1 30 = some sol ∧
      1 ≤ sol.wraps ∧ sol.wraps ≤ 30 ∧
      computeResistanceOhm "Kanthal A1" (3 / 10) (sol.wraps : ℚ) (5 / 2) 4 = some sol.resistance) :=
  ⟨rfl, by norm_num, by norm_num, by norm_num, by norm_num,
    findWrapsForTarget_invariants "Kanthal A1"
      ⟨1.45, "Kanthal A1 (good for wattage, not for TC)"⟩ rfl (3 / 10) (5 / 2) 4 1 30
      (by norm_num) (by norm_num) (by norm_num) (by norm_num)⟩

/-- C4 (counterexample): the code's guard is JS truthiness (`r || 1e-6`), not
`max(r, ε)`: at resistance `1/2000000` (strictly between 0 and ε) the code
divides by the resistance itself, giving current `14800000` A where the
claimed formula `voltage / max(r, ε)` gives `7400000` A; and the code's power
uses the guarded resistance, so at resistance `0` it returns `54760000` W
where the claimed `current² × resistance` is `0`. -/
theorem electrical_derivation_cex :
    currentAtTarget (37 / 5) (1 / 2000000) = 14800000 ∧
    (37 / 5 : ℚ) / max (1 / 2000000) (1 / 1000000) = 7400000 ∧
    (14800000 : ℚ) ≠ 7400000 ∧
    powerAtTarget (37 / 5) 0 = 54760000 ∧
    (currentAtTarget (37 / 5) 0) ^ 2 * 0 = 0 ∧
    (54760000 : ℚ) ≠ 0 := by
  refine ⟨by norm_num [currentAtTarget, epsGuard], ?_, by norm_num,
    by norm_num [powerAtTarget, currentAtTarget, epsGuard], by ring, by norm_num⟩
  rw [max_eq_right (by norm_num : (1 / 2000000 : ℚ) ≤ 1 / 1000000)]
  norm_num

/-- C4 (amended): the electrical derivation is total and never fails:
`current = voltage / r′` and `power = current² × r′` where `r′` is the
truthiness-guarded resistance (`ε = 1e-6` substituted only when the
resistance is exactly `0`), `exceedsSafetyLimit` holds exactly when the
current exceeds the safety limit, and at resistance `0` the current is the
finite (very large) value `1000000 × voltage`. -/
theorem electrical_derivation_eval (voltage r limit : ℚ) :
    currentAtTarget voltage r = voltage / (if r = 0 then 1 / 1000000 else r) ∧
    powerAtTarget voltage r =
      (currentAtTarget voltage r) ^ 2 * (if r = 0 then 1 / 1000000 else r) ∧
    (exceedsSafetyLimit (currentAtTarget voltage r) limit = true ↔
      limit < currentAtTarget voltage r) ∧
    (r = 0 → currentAtTarget voltage r = 1000000 * voltage) := by
  refine ⟨rfl, rfl, by simp [exceedsSafetyLimit], fun h => ?_⟩
  subst h
  show voltage / epsGuard 0 = 1000000 * voltage
  rw [show epsGuard 0 = 1 / 1000000 by norm_num [epsGuard]]
  field_simp
  ring

/-- Witness for `electrical_derivation_eval` at voltage 7.4 V, resistance 0 Ω,
limit 30 A. -/
theorem electrical_derivation_eval_witness :
    (0 : ℚ) = 0 ∧
    (currentAtTarget (37 / 5) 0 = (37 / 5 : ℚ) / (if (0 : ℚ) = 0 then 1 / 1000000 else 0) ∧
      powerAtTarget (37 / 5) 0 =
        (currentAtTarget (37 / 5) 0) ^ 2 * (if (0 : ℚ) = 0 then 1 / 1000000 else 0) ∧
      (exceedsSafetyLimit (currentAtTarget (37 / 5) 0) 30 = true ↔
        (30 : ℚ) < currentAtTarget (37 / 5) 0) ∧
      ((0 : ℚ) = 0 → currentAtTarget (37 / 5) 0 = 1000000 * (37 / 5))) :=
  ⟨rfl, electrical_derivation_eval (37 / 5) 0 30⟩

/-- C6: looking up any id that is not one of the five catalog keys yields no
material, and every resistance computation with such an id fails (the JS code
throws; no default material is substituted); each of the five catalog keys
returns its entry unchanged. -/
theorem materials_lookup_contract (mk : String)
    (h : mk ≠ "Kanthal A1" ∧ mk ≠ "Nichrome (Ni80)" ∧ mk ≠ "SS316L" ∧
      mk ≠ "Ni200" ∧ mk ≠ "Titanium (Ti)") :
    (materials mk = none ∧
      ∀ d wq idm legs : ℚ, computeResistanceOhm mk d wq idm legs = none) ∧
    materials "Kanthal A1" = some ⟨1.45, "Kanthal A1 (good for wattage, not for TC)"⟩ ∧
    materials "Nichrome (Ni80)" =
      some ⟨1.09, "Nichrome — high resistivity, not for TC typically"⟩ ∧
    materials "SS316L" = some ⟨0.75, "Stainless Steel 316L — works with TC and VW"⟩ ∧
    materials "Ni200" = some ⟨0.70, "Nickel 200 — TC only, fragile"⟩ ∧
    materials "Titanium (Ti)" = some ⟨0.42, "Titanium — TC only, use with care"⟩ := by
  obtain ⟨h1, h2, h3, h4, h5⟩ := h
  have hnone : materials mk = none := by
    unfold materials
    rw [if_neg h1, if_neg h2, if_neg h3, if_neg h4, if_neg h5]
  refine ⟨⟨hnone, fun d wq idm legs => ?_⟩, rfl, rfl, rfl, rfl, rfl⟩
  unfold computeResistanceOhm
  rw [hnone]

/-- Witness for `materials_lookup_contract` at the unknown id `"copper"`. -/
theorem materials_lookup_contract_witness :
    (("copper" ≠ "Kanthal A1" ∧ "copper" ≠ "Nichrome (Ni80)" ∧ "copper" ≠ "SS316L" ∧
        "copper" ≠ "Ni200" ∧ "copper" ≠ "Titanium (Ti)") ∧
      materials "copper" = none ∧
      computeResistanceOhm "copper" (1 / 2) 5 3 6 = none) :=
  ⟨by decide,
    (materials_lookup_contract "copper" (by decide)).1.1,
    (materials_lookup_contract "copper" (by decide)).1.2 (1 / 2) 5 3 6⟩

/-- C8: for every catalog material and every computed power `p`, the exported
profile has mode `TC-SS` exactly for SS316L, Ni200 and the titanium entry and
`Power` otherwise; its temperature field is `220` exactly for SS316L and
absent otherwise; and its numeric fields are `min(50, round(p))`,
`round(clamp(p×1.4, 20, 80))`, preheat time 1 and cutoff 8. -/
theorem buildProfile_policy (mk : String) (mat : Material)
    (hm : materials mk = some mat) (p r : ℚ) :
    ∃ prof : Profile, buildProfile mk p r = some prof ∧
      prof.Mode =
        (if mk = "SS316L" ∨ mk = "Ni200" ∨ mk = "Titanium (Ti)" then "TC-SS" else "Power") ∧
      prof.Temperature = (if mk = "SS316L" then some (220 : ℤ) else none) ∧
      prof.Power = min 50 (jsRound p) ∧
      prof.PreheatPower = jsRound (min 80 (max 20 (p * 1.4))) ∧
      prof.PreheatTime = 1 ∧
      prof.Cutoff = 8 := by
  unfold materials at hm
  split_ifs at hm with h1 h2 h3 h4 h5
  · subst h1
    refine ⟨_, rfl, ?_, ?_, rfl, rfl, rfl, rfl⟩ <;> (dsimp only; decide)
  · subst h2
    refine ⟨_, rfl, ?_, ?_, rfl, rfl, rfl, rfl⟩ <;> (dsimp only; decide)
  · subst h3
    refine ⟨_, rfl, ?_, ?_, rfl, rfl, rfl, rfl⟩ <;> (dsimp only; decide)
  · subst h4
    refine ⟨_, rfl, ?_, ?_, rfl, rfl, rfl, rfl⟩ <;> (dsimp only; decide)
  · subst h5
    refine ⟨_, rfl, ?_, ?_, rfl, rfl, rfl, rfl⟩ <;> (dsimp only; decide)

/-- Witness for `buildProfile_policy`: Kanthal A1 with computed power 100 W. -/
theorem buildProfile_policy_witness :
    materials "Kanthal A1" = some ⟨1.45, "Kanthal A1 (good for wattage, not for TC)"⟩ ∧
    (∃ prof : Profile, buildProfile "Kanthal A1" 100 (1 / 4) = some prof ∧
      prof.Mode =
        (if "Kanthal A1" = "SS316L" ∨ "Kanthal A1" = "Ni200" ∨ "Kanthal A1" = "Titanium (Ti)"
          then "TC-SS" else "Power") ∧
      prof.Temperature = (if "Kanthal A1" = "SS316L" then some (220 : ℤ) else none) ∧
      prof.Power = min 50 (jsRound 100) ∧
      prof.PreheatPower = jsRound (min 80 (max 20 ((100 : ℚ) * 1.4))) ∧
      prof.PreheatTime = 1 ∧
      prof.Cutoff = 8) :=
  ⟨rfl, buildProfile_policy "Kanthal A1" ⟨1.45, "Kanthal A1 (good for wattage, not for TC)"⟩
    rfl 100 (1 / 4)⟩

/-- C9 (counterexample): the serializer omits the temperature line by JS
truthiness, not by field presence: for a profile whose temperature field is
present with value `0`, the line `Temperature=0` is omitted even though the
field is present, so "the line is present exactly when the field is present"
fails at this input. -/
theorem serializeProfile_truthiness_cex :
    (⟨"N", "Power", some 0, 10, 20, 1, 8, "0.2500"⟩ : Profile).Temperature = some 0 ∧
    serializeProfile ⟨"N", "Power", some 0, 10, 20, 1, 8, "0.2500"⟩ =
      "; Generated by trhacknon Coil Builder\n[ProfileCustom]\nName=N\nMode=Power\nPower=10\nPreheatPower=20\nPreheatTime=1\nCutoff=8\n; EstimatedResistance=0.2500\n" ∧
    serializeProfile ⟨"N", "Power", some 0, 10, 20, 1, 8, "0.2500"⟩ ≠
      "; Generated by trhacknon Coil Builder\n[ProfileCustom]\nName=N\nMode=Power\nTemperature=0\nPower=10\nPreheatPower=20\nPreheatTime=1\nCutoff=8\n; EstimatedResistance=0.2500\n" := by
  refine ⟨rfl, rfl, ?_⟩
  decide

/-- C9 (amended): serialization is a pure function producing the fixed
line-oriented key=value document — header comment, `Name`, `Mode`, the
optional `Temperature` line, `Power`, `PreheatPower`, `PreheatTime`, `Cutoff`
and the trailing estimated-resistance comment — where the temperature line is
empty exactly when the temperature field is absent or zero (JS truthiness),
rather than exactly when it is absent. -/
theorem serializeProfile_format (p : Profile) :
    serializeProfile p =
      "; Generated by trhacknon Coil Builder\n[ProfileCustom]\nName=" ++ p.Name ++
        "\nMode=" ++ p.Mode ++ "\n" ++ temperatureSegment p.Temperature ++
        "Power=" ++ toString p.Power ++ "\nPreheatPower=" ++ toString p.PreheatPower ++
        "\nPreheatTime=" ++ toString p.PreheatTime ++ "\nCutoff=" ++ toString p.Cutoff ++
        "\n; EstimatedResistance=" ++ p.Resistance ++ "\n" ∧
    (temperatureSegment p.Temperature = "" ↔
      p.Temperature = none ∨ p.Temperature = some 0) := by
  refine ⟨rfl, ?_⟩
  cases hT : p.Temperature with
  | none => simp [temperatureSegment]
  | some t =>
    by_cases h0 : t = 0
    · subst h0
      simp [temperatureSegment]
    · simp only [temperatureSegment, if_neg h0]
      constructor
      · intro habs
        have hlen := congrArg String.length habs
        rw [String.length_append, String.length_append] at hlen
        rw [show String.length "Temperature=" = 12 from rfl,
          show String.length "\n" = 1 from rfl,
          show String.length "" = 0 from rfl] at hlen
        omega
      · intro hor
        rcases hor with hn | hz
        · exact Option.noConfusion hn
        · exact absurd (Option.some.inj hz) h0

/-- Witness for `zero_diameter_not_guarded` at SS316L, 5 wraps, 3 mm inner
diameter, 6 mm legs, and guard input 0. -/
theorem zero_diameter_not_guarded_witness :
    computeResistanceOhm "SS316L" 0 5 3 6 = none ∧ epsGuard 0 ≠ 0 :=
  ⟨(zero_diameter_not_guarded "SS316L" 5 3 6).2.1,
    (zero_diameter_not_guarded "SS316L" 5 3 6).2.2 0⟩

/-- Witness for `serializeProfile_format` at a concrete profile with
temperature 220. -/
theorem serializeProfile_format_witness :
    temperatureSegment (some (220 : ℤ)) = "" ↔
      (some (220 : ℤ) = none ∨ some (220 : ℤ) = some 0) :=
  (serializeProfile_format ⟨"DAB-CUSTOM", "TC-SS", some 220, 40, 56, 1, 8, "0.3093"⟩).2
